import Mathlib

/-!
Shallow embedding of the request-execution core of the `apisdk` crate
(`apisdk/src/executor/execute.rs`), together with the collaborator types it
consumes.  Asynchronous I/O outcomes (the network send, body decoding) are
supplied by an explicit `World` of oracles, and every observable side effect
(log calls, network sends, decoder invocations) is recorded in an event trace
returned alongside the result.
-/

/-- Log levels of the `log` crate (`log::LevelFilter`), an external dependency
of the source. -/
inductive LevelFilter
  | Off
  | Error
  | Warn
  | Info
  | Debug
  | Trace
deriving DecidableEq, Repr

/-- Modelled from the spec: `MimeType` is a "closed variant
\x7bJson, Xml, Text, Other(raw string)\x7d" (§3); its definition is not under
`src/`. -/
inductive MimeType
  | Json
  | Xml
  | Text
  | Other (raw : String)
deriving DecidableEq, Repr

/-- Characters of a content-type value up to the first `;` (the media-type
essence, before any parameters). -/
def takeUntilSemi : List Char → List Char
  | [] => []
  | c :: cs => if c = ';' then [] else c :: takeUntilSemi cs

/-- Lowercase every character. -/
def lowerChars : List Char → List Char
  | [] => []
  | c :: cs => c.toLower :: lowerChars cs

/-- Strip leading and trailing whitespace. -/
def trimChars (cs : List Char) : List Char :=
  ((cs.dropWhile Char.isWhitespace).reverse.dropWhile Char.isWhitespace).reverse

/-- Modelled from the spec: `MimeType` is "derived from the response's
content-type header, case-insensitively, ignoring parameters" (§3), and an
unrecognized content type keeps the raw string (§4.5, §8). -/
def MimeType.from (s : String) : MimeType :=
  let essence := String.mk (lowerChars (trimChars (takeUntilSemi s.data)))
  if essence == "application/json" then .Json
  else if essence == "application/xml" || essence == "text/xml" then .Xml
  else if essence == "text/plain" then .Text
  else .Other s

/-- Modelled from the spec: the display form of a `MimeType`
(`content_type.to_string()` is used when synthesizing a mock response). -/
def MimeType.toStr : MimeType → String
  | .Json => "application/json"
  | .Xml => "application/xml"
  | .Text => "text/plain"
  | .Other raw => raw

/-- JSON values (`serde_json::Value`); numbers are modelled as integers, which
suffices for the properties considered here. -/
inductive JsonValue
  | null
  | bool (b : Bool)
  | num (n : Int)
  | str (s : String)
  | arr (xs : List JsonValue)
  | obj (fields : List (String × JsonValue))

/-- Normalized response body (`ResponseBody`, the spec's `NormalizedBody`):
closed variant \x7bJson, Xml, Text\x7d (§3). -/
inductive ResponseBody
  | Json (v : JsonValue)
  | Xml (x : String)
  | Text (t : String)

/-- Modelled from the spec: the error taxonomy of §7 (`ApiError` itself is not
under `src/`); error payloads follow the constructors used in
`execute.rs`. Errors raised by mock handlers (`anyhow::Error`) are modelled as
strings. -/
inductive ApiError
  | BuildRequest (msg : String)
  | MultipartForm
  | Network (msg : String)
  | HttpClientStatus (code : Nat) (reason : String)
  | HttpServerStatus (code : Nat) (reason : String)
  | DecodeResponse (contentType : MimeType) (msg : String)
  | UnsupportedContentType (contentType : MimeType)
  | Middleware (msg : String)
deriving DecidableEq, Repr

/-- Canonical reason phrases of HTTP status codes, following
`http::StatusCode::canonical_reason` of the external `http` crate used by the
source (via `reqwest`). -/
def canonicalReason (code : Nat) : Option String :=
  match code with
  | 100 => some "Continue"
  | 101 => some "Switching Protocols"
  | 102 => some "Processing"
  | 200 => some "OK"
  | 201 => some "Created"
  | 202 => some "Accepted"
  | 203 => some "Non Authoritative Information"
  | 204 => some "No Content"
  | 205 => some "Reset Content"
  | 206 => some "Partial Content"
  | 207 => some "Multi-Status"
  | 208 => some "Already Reported"
  | 226 => some "IM Used"
  | 300 => some "Multiple Choices"
  | 301 => some "Moved Permanently"
  | 302 => some "Found"
  | 303 => some "See Other"
  | 304 => some "Not Modified"
  | 305 => some "Use Proxy"
  | 307 => some "Temporary Redirect"
  | 308 => some "Permanent Redirect"
  | 400 => some "Bad Request"
  | 401 => some "Unauthorized"
  | 402 => some "Payment Required"
  | 403 => some "Forbidden"
  | 404 => some "Not Found"
  | 405 => some "Method Not Allowed"
  | 406 => some "Not Acceptable"
  | 407 => some "Proxy Authentication Required"
  | 408 => some "Request Timeout"
  | 409 => some "Conflict"
  | 410 => some "Gone"
  | 411 => some "Length Required"
  | 412 => some "Precondition Failed"
  | 413 => some "Payload Too Large"
  | 414 => some "URI Too Long"
  | 415 => some "Unsupported Media Type"
  | 416 => some "Range Not Satisfiable"
  | 417 => some "Expectation Failed"
  | 418 => some "I'm a teapot"
  | 421 => some "Misdirected Request"
  | 422 => some "Unprocessable Entity"
  | 423 => some "Locked"
  | 424 => some "Failed Dependency"
  | 426 => some "Upgrade Required"
  | 428 => some "Precondition Required"
  | 429 => some "Too Many Requests"
  | 431 => some "Request Header Fields Too Large"
  | 451 => some "Unavailable For Legal Reasons"
  | 500 => some "Internal Server Error"
  | 501 => some "Not Implemented"
  | 502 => some "Bad Gateway"
  | 503 => some "Service Unavailable"
  | 504 => some "Gateway Timeout"
  | 505 => some "HTTP Version Not Supported"
  | 506 => some "Variant Also Negotiates"
  | 507 => some "Insufficient Storage"
  | 508 => some "Loop Detected"
  | 510 => some "Not Extended"
  | 511 => some "Network Authentication Required"
  | _ => none

/-- Rendering of `status.to_string()`: the `Display` impl of `http::StatusCode` renders the
numeric code followed by the canonical reason, e.g. `"200 OK"`. -/
def statusToString (code : Nat) : String :=
  toString code ++ " " ++ (canonicalReason code).getD "<unknown status code>"

/-- Predicate `StatusCode::is_client_error`: 400..=499. -/
def isClientError (code : Nat) : Bool :=
  decide (400 ≤ code ∧ code ≤ 499)

/-- Predicate `StatusCode::is_server_error`: 500..=599. -/
def isServerError (code : Nat) : Bool :=
  decide (500 ≤ code ∧ code ≤ 599)

/-- Modelled from the spec: the loggable summary of form/multipart fields
(`get_meta()`); `FormLike` is not under `src/`. -/
def FormMeta := List (String × String)

/-- Modelled from the spec: a materialized multipart body together with its
loggable meta (`form.get_meta()` is called on the multipart value in
`_send_multipart`). -/
structure MultipartData where
  get_meta : FormMeta

/-- A materialized url-encoded form body (`form.get_form()`). -/
def FormData := List (String × String)

/-- The payload snapshot a `Logger` may carry for logging (§3: "optional
snapshot of the outgoing payload for logging"). -/
inductive PayloadLog
  | multipart (meta : FormMeta)
  | form (meta : FormMeta)

/-- Modelled from the spec: `Logger` carries "target, level, correlation_id,
optional snapshot of the outgoing payload" (§3); its definition is not under
`src/`. -/
structure Logger where
  target : String
  level : LevelFilter
  requestId : String
  payload : Option PayloadLog := none

/-- Constructor `Logger::new(log_target, log_filter, request_id)`. -/
def Logger.new (target : String) (level : LevelFilter) (requestId : String) : Logger :=
  { target := target, level := level, requestId := requestId }

/-- Modelled from the spec: loggers are "enabled/disabled based on level"
(§3). -/
def Logger.is_enabled (l : Logger) : Bool :=
  l.level != LevelFilter.Off

/-- Method `logger.with_multipart(meta)`. -/
def Logger.with_multipart (l : Logger) (meta : FormMeta) : Logger :=
  { l with payload := some (PayloadLog.multipart meta) }

/-- Method `logger.with_form(meta)`. -/
def Logger.with_form (l : Logger) (meta : FormMeta) : Logger :=
  { l with payload := some (PayloadLog.form meta) }

/-- The materialized request produced by `req.build()`. -/
structure BuiltRequest where
  url : String

/-- Modelled from the spec: the mock capability is "polymorphic over
\x7b handle(request) -> Result<NormalizedBody, error>, type_name() -> string \x7d"
(§6); `MockServer` is not under `src/`. -/
structure MockServer where
  type_name : String
  handle : BuiltRequest → Except String ResponseBody

/-- Modelled from the spec: the logging extension object; `execute.rs` reads
its `level` field (`LogConfig` is not under `src/`). -/
structure LogConfig where
  level : LevelFilter

/-- Modelled from the spec: the correlation-id extension object; `execute.rs`
reads its `request_id` field (`RequestId` is not under `src/`). -/
structure RequestId where
  request_id : String

/-- The request's typed extension set, restricted to the extension types the
execution core reads or writes. -/
structure Extensions where
  logConfig : Option LogConfig := none
  requestId : Option RequestId := none
  mockServer : Option MockServer := none
  logger : Option Logger := none

/-- The body attached to a request builder by the payload-shaping step. -/
inductive ReqBody
  | form (f : FormData)
  | multipart (m : MultipartData)

/-- The request builder (`reqwest_middleware::RequestBuilder` as the core uses
it): an extension set, an attachable body, and the outcome of `req.build()`. -/
structure RequestBuilder where
  extensions : Extensions
  body : Option ReqBody := none
  build : Except String BuiltRequest

/-- Method `req.with_extension(logger)`. -/
def RequestBuilder.withLogger (req : RequestBuilder) (l : Logger) : RequestBuilder :=
  { req with extensions := { req.extensions with logger := some l } }

/-- Method `req.multipart(form)`. -/
def RequestBuilder.multipart (req : RequestBuilder) (m : MultipartData) : RequestBuilder :=
  { req with body := some (ReqBody.multipart m) }

/-- Method `req.form(&form)`. -/
def RequestBuilder.form (req : RequestBuilder) (f : FormData) : RequestBuilder :=
  { req with body := some (ReqBody.form f) }

/-- An HTTP response as the core observes it: status code, headers (each value
paired with the result of `HeaderValue::to_str().ok()` — `none` models a value
that is not a valid string), the originating url, and the raw body. -/
structure HttpResponse where
  status : Nat
  headers : List (String × Option String)
  url : String := ""
  body : String := ""

/-- The outcomes of the external asynchronous operations a single pipeline run
may perform: the generated trace id, the network send, and the decoding of the
received response's body (`res.json()` / `res.text()`). -/
structure World where
  freshRequestId : String := ""
  sendResult : Except String HttpResponse
  jsonResult : Except String JsonValue := .error ""
  textResult : Except String String := .error ""

/-- Which decoder (`parse_as_json` / `parse_as_xml` / `parse_as_text`) was
invoked. -/
inductive DecoderKind
  | Json
  | Xml
  | Text
deriving DecidableEq, Repr

/-- Observable side effects of one pipeline run, in chronological order:
logger calls, network sends, decoder invocations. -/
inductive Event
  | logMockRequestAndResponse (typeName : String)
  | logMockResponseBody (body : ResponseBody)
  | logError (e : ApiError)
  | logResponseJson (v : JsonValue)
  | logResponseXml (x : String)
  | logResponseText (t : String)
  | networkSend
  | decoderInvoked (d : DecoderKind)

/-- Number of network sends recorded in a trace. -/
def sendCount (evs : List Event) : Nat :=
  evs.countP fun ev => match ev with
    | .networkSend => true
    | _ => false

/-- Number of invocations of one decoder recorded in a trace. -/
def decoderCount (evs : List Event) (d : DecoderKind) : Nat :=
  evs.countP fun ev => match ev with
    | .decoderInvoked k => k == d
    | _ => false

/-- Total number of decoder invocations recorded in a trace. -/
def decoderTotal (evs : List Event) : Nat :=
  evs.countP fun ev => match ev with
    | .decoderInvoked _ => true
    | _ => false

/-- Number of times a given error was logged in a trace. -/
def errorLogCount (evs : List Event) (e : ApiError) : Nat :=
  evs.countP fun ev => match ev with
    | .logError e2 => e2 == e
    | _ => false

/-- Total number of `log_error` calls recorded in a trace. -/
def errorLogTotal (evs : List Event) : Nat :=
  evs.countP fun ev => match ev with
    | .logError _ => true
    | _ => false

/-- Insert into a string map with `HashMap::insert` semantics: an existing key
has its value replaced, a fresh key is added.  `HashMap` is unordered; it is
modelled as an association list, faithful up to ordering. -/
def insertAssoc (m : List (String × String)) (k v : String) : List (String × String) :=
  if m.any (fun p => p.1 == k) then
    m.map (fun p => if p.1 == k then (k, v) else p)
  else
    m ++ [(k, v)]

/-- The header-collection loop of `parse_as_json`: for each response header
whose value is a valid string, insert `name.to_string() -> value.to_string()`
into a fresh `HashMap`. -/
def collectHeaders (hs : List (String × Option String)) : List (String × String) :=
  hs.foldl
    (fun m p => match p.2 with
      | some v => insertAssoc m p.1 v
      | none => m)
    []

/-- Insert into a JSON object with `serde_json::Map::insert` semantics: an
existing key has its value replaced, a fresh key is added. -/
def insertField (fs : List (String × JsonValue)) (k : String) (v : JsonValue) :
    List (String × JsonValue) :=
  if fs.any (fun p => p.1 == k) then
    fs.map (fun p => if p.1 == k then (k, v) else p)
  else
    fs ++ [(k, v)]

/-- Serialization `serde_json::to_value` applied to the collected header map (a
`HashMap<String, String>`, for which serialization always succeeds). -/
def headersToJson (m : List (String × String)) : JsonValue :=
  JsonValue.obj (m.map fun p => (p.1, JsonValue.str p.2))

/-- Decoder `parse_as_json`: extract headers if required, decode the body as JSON
(outcome supplied by `world.jsonResult`), log, and inject the `__headers__`
field into object-shaped payloads. -/
def parse_as_json (res : HttpResponse) (content_type : MimeType) (_logger : Logger)
    (require_headers : Bool) (world : World) :
    Except ApiError ResponseBody × List Event :=
  let headers :=
    if require_headers then some (collectHeaders res.headers) else none
  match world.jsonResult with
  | .error e =>
      let err := ApiError.DecodeResponse content_type e
      (.error err, [Event.decoderInvoked DecoderKind.Json, Event.logError err])
  | .ok json =>
      let out := match headers with
        | some hs => match json with
            | JsonValue.obj m => JsonValue.obj (insertField m "__headers__" (headersToJson hs))
            | other => other
        | none => json
      (.ok (ResponseBody.Json out),
        [Event.decoderInvoked DecoderKind.Json, Event.logResponseJson json])

/-- Decoder `parse_as_xml`: decode the body as text (outcome supplied by
`world.textResult`) and log it. -/
def parse_as_xml (_res : HttpResponse) (content_type : MimeType) (_logger : Logger)
    (world : World) : Except ApiError ResponseBody × List Event :=
  match world.textResult with
  | .error e =>
      let err := ApiError.DecodeResponse content_type e
      (.error err, [Event.decoderInvoked DecoderKind.Xml, Event.logError err])
  | .ok text =>
      (.ok (ResponseBody.Xml text),
        [Event.decoderInvoked DecoderKind.Xml, Event.logResponseXml text])

/-- Decoder `parse_as_text`: decode the body as text (outcome supplied by
`world.textResult`) and log it. -/
def parse_as_text (_res : HttpResponse) (content_type : MimeType) (_logger : Logger)
    (world : World) : Except ApiError ResponseBody × List Event :=
  match world.textResult with
  | .error e =>
      let err := ApiError.DecodeResponse content_type e
      (.error err, [Event.decoderInvoked DecoderKind.Text, Event.logError err])
  | .ok text =>
      (.ok (ResponseBody.Text text),
        [Event.decoderInvoked DecoderKind.Text, Event.logResponseText text])

/-- The content-type lookup of `send_and_parse`:
`res.headers().get(CONTENT_TYPE).and_then(|v| v.to_str().ok())`; header names
are stored normalized (lowercase) by the header map. -/
def contentTypeOf (res : HttpResponse) : Option String :=
  (res.headers.find? fun p => p.1 == "content-type").bind fun p => p.2

/-- Pipeline `send_and_parse`: mock short-circuit, network send, status classification,
content negotiation, decode. -/
def send_and_parse (req : RequestBuilder) (logger : Logger) (require_headers : Bool)
    (world : World) : Except ApiError ResponseBody × List Event :=
  match req.extensions.mockServer with
  | some mock =>
      match req.build with
      | .error e => (.error (ApiError.BuildRequest e), [])
      | .ok breq =>
          match mock.handle breq with
          | .ok body =>
              (.ok body,
                [Event.logMockRequestAndResponse mock.type_name,
                 Event.logMockResponseBody body])
          | .error e =>
              (.error (ApiError.Middleware e),
                [Event.logMockRequestAndResponse mock.type_name,
                 Event.logError (ApiError.Middleware e)])
  | none =>
      match world.sendResult with
      | .error e => (.error (ApiError.Network e), [Event.networkSend])
      | .ok res =>
          if isClientError res.status || isServerError res.status then
            let e :=
              if isClientError res.status then
                ApiError.HttpClientStatus res.status (statusToString res.status)
              else
                ApiError.HttpServerStatus res.status (statusToString res.status)
            (.error e, [Event.networkSend, Event.logError e])
          else
            let content_type :=
              ((contentTypeOf res).map MimeType.from).getD MimeType.Text
            match content_type with
            | MimeType.Json =>
                let (r, evs) := parse_as_json res content_type logger require_headers world
                (r, Event.networkSend :: evs)
            | MimeType.Xml =>
                let (r, evs) := parse_as_xml res content_type logger world
                (r, Event.networkSend :: evs)
            | MimeType.Text =>
                let (r, evs) := parse_as_text res content_type logger world
                (r, Event.networkSend :: evs)
            | other =>
                (.error (ApiError.UnsupportedContentType other), [Event.networkSend])

/-- JSON string escaping as in `serde_json` (quotes and backslashes; control
characters do not occur in the properties considered here). -/
def escapeJsonString (s : String) : String :=
  s.foldl
    (fun acc c =>
      if c = '\\' then acc ++ "\\\\"
      else if c = '"' then acc ++ "\\\"" else acc.push c)
    ""

mutual

/-- Serializer `serde_json::Value::to_string()` (compact form). -/
def jsonToString : JsonValue → String
  | .null => "null"
  | .bool b => if b then "true" else "false"
  | .num n => toString n
  | .str s => "\"" ++ escapeJsonString s ++ "\""
  | .arr xs => "[" ++ jsonArrToString xs ++ "]"
  | .obj fs => "\x7b" ++ jsonObjToString fs ++ "\x7d"

/-- Comma-separated serialization of a JSON array's elements. -/
def jsonArrToString : List JsonValue → String
  | [] => ""
  | [x] => jsonToString x
  | x :: xs => jsonToString x ++ "," ++ jsonArrToString xs

/-- Comma-separated serialization of a JSON object's fields. -/
def jsonObjToString : List (String × JsonValue) → String
  | [] => ""
  | [(k, v)] => "\"" ++ escapeJsonString k ++ "\":" ++ jsonToString v
  | (k, v) :: fs =>
      "\"" ++ escapeJsonString k ++ "\":" ++ jsonToString v ++ "," ++ jsonObjToString fs

end

/-- Pipeline `send_and_unparse`: mock short-circuit (synthesizing a minimal response
from the mock body: `hyper::Response::builder().url(..).header(CONTENT_TYPE,
..).body(text)`, whose default status is 200), or plain network send. The
builder cannot fail on these well-formed inputs, so the `Middleware("Failed to
build response")` branch is not modelled. -/
def send_and_unparse (req : RequestBuilder) (_logger : Logger) (world : World) :
    Except ApiError HttpResponse × List Event :=
  match req.extensions.mockServer with
  | some mock =>
      match req.build with
      | .error e => (.error (ApiError.BuildRequest e), [])
      | .ok breq =>
          match mock.handle breq with
          | .ok body =>
              let ctAndText : MimeType × String := match body with
                | ResponseBody.Json json => (MimeType.Json, jsonToString json)
                | ResponseBody.Xml xml => (MimeType.Xml, xml)
                | ResponseBody.Text text => (MimeType.Text, text)
              (.ok
                { status := 200,
                  headers := [("content-type", some ctAndText.1.toStr)],
                  url := breq.url,
                  body := ctAndText.2 },
                [Event.logMockRequestAndResponse mock.type_name,
                 Event.logMockResponseBody body])
          | .error e =>
              (.error (ApiError.Middleware e),
                [Event.logMockRequestAndResponse mock.type_name,
                 Event.logError (ApiError.Middleware e)])
  | none =>
      match world.sendResult with
      | .error e => (.error (ApiError.Network e), [Event.networkSend])
      | .ok res => (.ok res, [Event.networkSend])

/-- Struct `RequestConfigurator` (execute.rs lines 14–22): per-call log target,
optional log filter, and the headers-required flag. -/
structure RequestConfigurator where
  log_target : String := ""
  log_filter : Option LevelFilter := none
  require_headers : Bool := false

/-- Constructor `RequestConfigurator::new`; the `IntoFilter` conversion of the filter
argument (not under `src/`) is modelled as already applied. -/
def RequestConfigurator.new (log_target : String) (log_filter : Option LevelFilter)
    (require_headers : Bool) : RequestConfigurator :=
  { log_target := log_target, log_filter := log_filter, require_headers := require_headers }

/-- Method `RequestConfigurator::merge`: update target and flag, keep the filter. -/
def RequestConfigurator.merge (c : RequestConfigurator) (log_target : String)
    (require_headers : Bool) : RequestConfigurator :=
  { c with log_target := log_target, require_headers := require_headers }

/-- Method `RequestConfigurator::build`: derive the Logger (extension level override,
else own filter, else Debug; correlation id from the `RequestId` extension)
and return it with the headers-required flag. -/
def RequestConfigurator.build (c : RequestConfigurator) (req : RequestBuilder) :
    Logger × Bool :=
  let log_filter :=
    (((req.extensions.logConfig.map fun config => config.level).orElse
      fun _ => c.log_filter).getD LevelFilter.Debug)
  let request_id :=
    ((req.extensions.requestId.map fun id => id.request_id).getD "")
  (Logger.new c.log_target log_filter request_id, c.require_headers)

/-- Modelled from the spec: `RequestTraceIdMiddleware::inject_extension`
"idempotently ensures the outgoing request carries a correlation identifier
extension; if one is already present it is left untouched" (§4.2); the
generated id is supplied by `world.freshRequestId`. -/
def RequestTraceIdMiddleware.inject_extension (req : RequestBuilder) (fresh : String) :
    RequestBuilder :=
  match req.extensions.requestId with
  | some _ => req
  | none =>
      { req with extensions :=
          { req.extensions with requestId := some { request_id := fresh } } }

/-- Entry point `_send`: plain request, no payload shaping. -/
def _send (req : RequestBuilder) (config : RequestConfigurator) (world : World) :
    Except ApiError ResponseBody × List Event :=
  let req := RequestTraceIdMiddleware.inject_extension req world.freshRequestId
  let lrh := config.build req
  let req := if lrh.1.is_enabled then req.withLogger lrh.1 else req
  send_and_parse req lrh.1 lrh.2 world

/-- Modelled from the spec: the `FormLike` capability as `execute.rs` consumes
it (`is_multipart`, `get_meta`, `get_multipart`, `get_form`); the trait is not
under `src/`, so it is modelled as a record of its method results. -/
structure FormLike where
  is_multipart : Bool
  get_meta : FormMeta
  get_multipart : Option MultipartData
  get_form : Option FormData

/-- Entry point `_send_form`: attach a multipart or url-encoded body when the payload can
produce one, annotate the logger with the form meta, then send and parse. -/
def _send_form (req : RequestBuilder) (form : FormLike) (config : RequestConfigurator)
    (world : World) : Except ApiError ResponseBody × List Event :=
  let req := RequestTraceIdMiddleware.inject_extension req world.freshRequestId
  let is_multipart := form.is_multipart
  let meta := form.get_meta
  let req :=
    if is_multipart then
      match form.get_multipart with
      | some multipart => req.multipart multipart
      | none => req
    else
      match form.get_form with
      | some f => req.form f
      | none => req
  let lrh := config.build req
  let req :=
    if lrh.1.is_enabled then
      req.withLogger
        (if is_multipart then lrh.1.with_multipart meta else lrh.1.with_form meta)
    else req
  send_and_parse req lrh.1 lrh.2 world

/-- Entry point `_send_multipart`: fail with `ApiError::MultipartForm` when the payload
cannot produce a multipart body, otherwise attach it and send. -/
def _send_multipart (req : RequestBuilder) (form : FormLike)
    (config : RequestConfigurator) (world : World) :
    Except ApiError ResponseBody × List Event :=
  let req := RequestTraceIdMiddleware.inject_extension req world.freshRequestId
  match form.get_multipart with
  | none => (.error ApiError.MultipartForm, [])
  | some form =>
      let meta := form.get_meta
      let req := req.multipart form
      let lrh := config.build req
      let req :=
        if lrh.1.is_enabled then req.withLogger (lrh.1.with_multipart meta) else req
      send_and_parse req lrh.1 lrh.2 world

/-- Entry point `_send_raw`: build the logger, discard the headers-required flag, and
return the unparsed response. -/
def _send_raw (req : RequestBuilder) (config : RequestConfigurator) (world : World) :
    Except ApiError HttpResponse × List Event :=
  let req := RequestTraceIdMiddleware.inject_extension req world.freshRequestId
  let lrh := config.build req
  let req := if lrh.1.is_enabled then req.withLogger lrh.1 else req
  send_and_unparse req lrh.1 world

/-- The error kinds that `execute.rs` logs via `logger.log_error` at the point
of detection (status errors, decode errors, and mock-handler failures). -/
def isLoggedKind : ApiError → Bool
  | .HttpClientStatus _ _ => true
  | .HttpServerStatus _ _ => true
  | .DecodeResponse _ _ => true
  | .Middleware _ => true
  | _ => false

/-- Fixture: a successfully built request. -/
def exBuilt : BuiltRequest := { url := "http://localhost/api" }

/-- Fixture: a plain request with no extensions. -/
def exReq : RequestBuilder := { extensions := {}, build := .ok exBuilt }

/-- Fixture: a logger at the default level. -/
def exLogger : Logger := Logger.new "api" LevelFilter.Debug "req-1"

/-- Fixture: a 404 response with no headers. -/
def exWorld404 : World := { sendResult := .ok { status := 404, headers := [] } }

/-- Fixture: a 503 response with no headers. -/
def exWorld503 : World := { sendResult := .ok { status := 503, headers := [] } }

/-- Fixture: a 200 JSON response with a `host` header. -/
def exRespJson : HttpResponse :=
  { status := 200,
    headers := [("content-type", some "application/json"), ("host", some "localhost")] }

/-- Fixture: the JSON response decoding to the object `\x7b"a":1\x7d`. -/
def exWorldJsonObj : World :=
  { sendResult := .ok exRespJson, jsonResult := .ok (JsonValue.obj [("a", JsonValue.num 1)]) }

/-- Fixture: the JSON response decoding to the array `[1]`. -/
def exWorldJsonArr : World :=
  { sendResult := .ok exRespJson, jsonResult := .ok (JsonValue.arr [JsonValue.num 1]) }

/-- Fixture: a 200 response with content type `application/octet-stream`. -/
def exWorldOctet : World :=
  { sendResult := .ok { status := 200, headers := [("content-type", some "application/octet-stream")] } }

/-- Fixture: a 200 response with no content-type header, body decoding to
`"hello"`. -/
def exWorldText : World :=
  { sendResult := .ok { status := 200, headers := [] }, textResult := .ok "hello" }

/-- Fixture: a 200 response with content type `text/xml`, body decoding to
`"<a/>"`. -/
def exWorldXml : World :=
  { sendResult := .ok { status := 200, headers := [("content-type", some "text/xml")] },
    textResult := .ok "<a/>" }

/-- Fixture: a mock capability whose handler succeeds with a text body. -/
def exMockOk : MockServer :=
  { type_name := "TestMockServer", handle := fun _ => .ok (ResponseBody.Text "mocked") }

/-- Fixture: a mock capability whose handler fails. -/
def exMockErr : MockServer :=
  { type_name := "TestMockServer", handle := fun _ => .error "boom" }

/-- Fixture: a request carrying the succeeding mock capability. -/
def exReqMockOk : RequestBuilder :=
  { extensions := { mockServer := some exMockOk }, build := .ok exBuilt }

/-- Fixture: a request carrying the failing mock capability. -/
def exReqMockErr : RequestBuilder :=
  { extensions := { mockServer := some exMockErr }, build := .ok exBuilt }

/-- Fixture: a payload claiming multipart shape that cannot produce a
multipart body. -/
def exFormNoMultipart : FormLike :=
  { is_multipart := true, get_meta := [], get_multipart := none, get_form := none }

/-- Fixture: a request carrying logging and correlation-id extensions. -/
def exReqExt : RequestBuilder :=
  { extensions :=
      { logConfig := some { level := LevelFilter.Info },
        requestId := some { request_id := "abc" } },
    build := .ok exBuilt }

/-- Fixture: a configurator with no log filter of its own. -/
def exCfg : RequestConfigurator :=
  { log_target := "api", log_filter := none, require_headers := false }

/-- C1: for every response whose status is 4xx or 5xx, `send_and_parse`
returns the matching typed status error (`HttpClientStatus` for 4xx,
`HttpServerStatus` for 5xx, carrying the numeric code and the status's display
string) and invokes no body decoder, so status errors and decode errors are
mutually exclusive. -/
theorem C1_status_error_short_circuits
    (req : RequestBuilder) (logger : Logger) (rh : Bool) (world : World)
    (res : HttpResponse)
    (hm : req.extensions.mockServer = none)
    (hs : world.sendResult = .ok res)
    (h4 : 400 ≤ res.status) (h5 : res.status ≤ 599) :
    (res.status ≤ 499 →
      send_and_parse req logger rh world =
        (.error (ApiError.HttpClientStatus res.status (statusToString res.status)),
         [Event.networkSend,
          Event.logError (ApiError.HttpClientStatus res.status (statusToString res.status))]))
    ∧ (500 ≤ res.status →
      send_and_parse req logger rh world =
        (.error (ApiError.HttpServerStatus res.status (statusToString res.status)),
         [Event.networkSend,
          Event.logError (ApiError.HttpServerStatus res.status (statusToString res.status))]))
    ∧ decoderTotal (send_and_parse req logger rh world).2 = 0 := by
  refine ⟨fun h9 => ?_, fun h10 => ?_, ?_⟩
  · have hc : isClientError res.status = true := by simp [isClientError]; omega
    simp [send_and_parse, hm, hs, hc]
  · have hc : isClientError res.status = false := by simp [isClientError]; omega
    have hsv : isServerError res.status = true := by simp [isServerError]; omega
    simp [send_and_parse, hm, hs, hc, hsv]
  · rcases le_or_lt res.status 499 with h | h
    · have hc : isClientError res.status = true := by simp [isClientError]; omega
      simp [send_and_parse, hm, hs, hc, decoderTotal]
    · have hc : isClientError res.status = false := by simp [isClientError]; omega
      have hsv : isServerError res.status = true := by simp [isServerError]; omega
      simp [send_and_parse, hm, hs, hc, hsv, decoderTotal]

/-- Witness for C1 at concrete 404 and 503 responses. -/
theorem C1_witness :
    send_and_parse exReq exLogger false exWorld404 =
      (.error (ApiError.HttpClientStatus 404 "404 Not Found"),
       [Event.networkSend,
        Event.logError (ApiError.HttpClientStatus 404 "404 Not Found")])
    ∧ send_and_parse exReq exLogger false exWorld503 =
      (.error (ApiError.HttpServerStatus 503 "503 Service Unavailable"),
       [Event.networkSend,
        Event.logError (ApiError.HttpServerStatus 503 "503 Service Unavailable")]) :=
  ⟨(C1_status_error_short_circuits exReq exLogger false exWorld404
      { status := 404, headers := [] } rfl rfl (by decide) (by decide)).1 (by decide),
   (C1_status_error_short_circuits exReq exLogger false exWorld503
      { status := 503, headers := [] } rfl rfl (by decide) (by decide)).2.1 (by decide)⟩

/-- C2: on a non-error status, `send_and_parse` normalizes the content-type
header and invokes exactly the matching decoder exactly once; a content type
normalizing outside \x7bJson, Xml, Text\x7d yields `UnsupportedContentType`
carrying the raw content type string, with no decoder run. -/
theorem C2_content_negotiation
    (req : RequestBuilder) (logger : Logger) (rh : Bool) (world : World)
    (res : HttpResponse) (s : String)
    (hm : req.extensions.mockServer = none)
    (hs : world.sendResult = .ok res)
    (hstat : res.status < 400 ∨ 599 < res.status)
    (hct : contentTypeOf res = some s) :
    (MimeType.from s = .Json →
      decoderCount (send_and_parse req logger rh world).2 DecoderKind.Json = 1
      ∧ decoderCount (send_and_parse req logger rh world).2 DecoderKind.Xml = 0
      ∧ decoderCount (send_and_parse req logger rh world).2 DecoderKind.Text = 0)
    ∧ (MimeType.from s = .Xml →
      decoderCount (send_and_parse req logger rh world).2 DecoderKind.Xml = 1
      ∧ decoderCount (send_and_parse req logger rh world).2 DecoderKind.Json = 0
      ∧ decoderCount (send_and_parse req logger rh world).2 DecoderKind.Text = 0)
    ∧ (MimeType.from s = .Text →
      decoderCount (send_and_parse req logger rh world).2 DecoderKind.Text = 1
      ∧ decoderCount (send_and_parse req logger rh world).2 DecoderKind.Json = 0
      ∧ decoderCount (send_and_parse req logger rh world).2 DecoderKind.Xml = 0)
    ∧ (∀ raw, MimeType.from s = .Other raw →
      send_and_parse req logger rh world =
        (.error (ApiError.UnsupportedContentType (MimeType.Other raw)), [Event.networkSend])
      ∧ decoderTotal (send_and_parse req logger rh world).2 = 0) := by
  have hc : isClientError res.status = false := by simp [isClientError]; omega
  have hsv : isServerError res.status = false := by simp [isServerError]; omega
  refine ⟨fun hj => ?_, fun hx => ?_, fun ht => ?_, fun raw ho => ?_⟩
  · rcases hjr : world.jsonResult with e | j <;>
      simp [send_and_parse, hm, hs, hc, hsv, hct, hj, parse_as_json, hjr, decoderCount]
  · rcases htr : world.textResult with e | t <;>
      simp [send_and_parse, hm, hs, hc, hsv, hct, hx, parse_as_xml, htr, decoderCount]
  · rcases htr : world.textResult with e | t <;>
      simp [send_and_parse, hm, hs, hc, hsv, hct, ht, parse_as_text, htr, decoderCount]
  · constructor
    · simp [send_and_parse, hm, hs, hc, hsv, hct, ho]
    · simp [send_and_parse, hm, hs, hc, hsv, hct, ho, decoderTotal]

/-- Witness for C2 at concrete JSON, XML, text and octet-stream responses. -/
theorem C2_witness :
    decoderCount (send_and_parse exReq exLogger false exWorldJsonObj).2 DecoderKind.Json = 1
    ∧ decoderCount (send_and_parse exReq exLogger false exWorldXml).2 DecoderKind.Xml = 1
    ∧ send_and_parse exReq exLogger false exWorldOctet =
        (.error (ApiError.UnsupportedContentType (MimeType.Other "application/octet-stream")),
         [Event.networkSend]) :=
  ⟨((C2_content_negotiation exReq exLogger false exWorldJsonObj exRespJson
      "application/json" rfl rfl (Or.inl (by decide)) rfl).1 (by decide)).1,
   ((C2_content_negotiation exReq exLogger false exWorldXml
      { status := 200, headers := [("content-type", some "text/xml")] }
      "text/xml" rfl rfl (Or.inl (by decide)) rfl).2.1 (by decide)).1,
   ((C2_content_negotiation exReq exLogger false exWorldOctet
      { status := 200, headers := [("content-type", some "application/octet-stream")] }
      "application/octet-stream" rfl rfl (Or.inl (by decide)) rfl).2.2.2
      "application/octet-stream" (by decide)).1⟩

/-- The header-collection fold, generalized over the accumulator: when every
header value is a readable string and header names are distinct, the fold
appends the headers in order. -/
theorem collectHeaders_foldl (hs : List (String × Option String)) :
    ∀ acc : List (String × String),
      (∀ p ∈ hs, (p.2).isSome = true) →
      (hs.map Prod.fst).Nodup →
      (∀ p ∈ acc, ∀ q ∈ hs, p.1 ≠ q.1) →
      List.foldl
        (fun m p => match p.2 with
          | some v => insertAssoc m p.1 v
          | none => m)
        acc hs
        = acc ++ hs.map (fun p => (p.1, (p.2).getD "")) := by
  induction hs with
  | nil => intro acc _ _ _; simp
  | cons p tl ih =>
    intro acc hread hnd hfresh
    obtain ⟨v, hv⟩ := Option.isSome_iff_exists.mp (hread p (List.mem_cons_self _ _))
    have hany : (acc.any fun q => q.1 == p.1) = false := by
      rw [List.any_eq_false]
      intro q hq
      simpa using hfresh q hq p (List.mem_cons_self _ _)
    have hnd2 : p.1 ∉ tl.map Prod.fst ∧ (tl.map Prod.fst).Nodup := by
      rw [List.map_cons, List.nodup_cons] at hnd
      exact hnd
    have hndtl : (tl.map Prod.fst).Nodup := hnd2.2
    have hnotin : p.1 ∉ tl.map Prod.fst := hnd2.1
    simp only [List.foldl_cons, hv]
    rw [show insertAssoc acc p.1 v = acc ++ [(p.1, v)] by simp [insertAssoc, hany]]
    rw [ih (acc ++ [(p.1, v)])
      (fun q hq => hread q (List.mem_cons_of_mem _ hq)) hndtl ?_]
    · simp [hv]
    · intro q hq r hr
      rcases List.mem_append.mp hq with hq | hq
      · exact hfresh q hq r (List.mem_cons_of_mem _ hr)
      · have hq1 : q.1 = p.1 := by
          rcases (List.mem_singleton.mp hq) with rfl; rfl
        rw [hq1]
        intro hcontra
        exact hnotin (hcontra ▸ List.mem_map_of_mem Prod.fst hr)

/-- With readable values and distinct names, `collectHeaders` yields the
header list itself. -/
theorem collectHeaders_eq (hs : List (String × Option String))
    (hread : ∀ p ∈ hs, (p.2).isSome = true)
    (hnd : (hs.map Prod.fst).Nodup) :
    collectHeaders hs = hs.map (fun p => (p.1, (p.2).getD "")) := by
  simpa [collectHeaders] using collectHeaders_foldl hs [] hread hnd (by simp)

/-- Inserting a fresh key into a JSON object appends the field. -/
theorem insertField_fresh (fs : List (String × JsonValue)) (k : String) (v : JsonValue)
    (h : ∀ kv ∈ fs, kv.1 ≠ k) : insertField fs k v = fs ++ [(k, v)] := by
  have hany : (fs.any fun p => p.1 == k) = false := by
    rw [List.any_eq_false]
    intro q hq
    simpa using h q hq
  simp [insertField, hany]

/-- C3: for a JSON response that parses successfully, `require_headers = true`
with an object-shaped value appends a `__headers__` field whose keys are
exactly the response header names and whose values are the header string
values (stated for headers with readable values, distinct names, and a body
without a pre-existing `__headers__` field); `require_headers = false` adds no
field; a non-object value is returned unchanged even with
`require_headers = true`. -/
theorem C3_require_headers_injection
    (req : RequestBuilder) (logger : Logger) (world : World)
    (res : HttpResponse) (j : JsonValue)
    (hm : req.extensions.mockServer = none)
    (hs : world.sendResult = .ok res)
    (hstat : res.status < 400 ∨ 599 < res.status)
    (hct : ((contentTypeOf res).map MimeType.from).getD MimeType.Text = MimeType.Json)
    (hj : world.jsonResult = .ok j) :
    (send_and_parse req logger false world).1 = .ok (ResponseBody.Json j)
    ∧ (∀ fields, j = JsonValue.obj fields →
        (∀ kv ∈ fields, kv.1 ≠ "__headers__") →
        (∀ p ∈ res.headers, (p.2).isSome = true) →
        (res.headers.map Prod.fst).Nodup →
        (send_and_parse req logger true world).1 =
          .ok (ResponseBody.Json (JsonValue.obj (fields ++
            [("__headers__",
              JsonValue.obj
                (res.headers.map fun p => (p.1, JsonValue.str ((p.2).getD ""))))]))))
    ∧ ((∀ fields, j ≠ JsonValue.obj fields) →
        (send_and_parse req logger true world).1 = .ok (ResponseBody.Json j)) := by
  have hc : isClientError res.status = false := by simp [isClientError]; omega
  have hsv : isServerError res.status = false := by simp [isServerError]; omega
  refine ⟨?_, fun fields hjobj hfreshk hread hnd => ?_, fun hnotobj => ?_⟩
  · simp [send_and_parse, hm, hs, hc, hsv, hct, parse_as_json, hj]
  · subst hjobj
    have hins : ∀ v, insertField fields "__headers__" v = fields ++ [("__headers__", v)] :=
      fun v => insertField_fresh _ _ v hfreshk
    have hcollect : collectHeaders res.headers
        = res.headers.map (fun p => (p.1, (p.2).getD "")) :=
      collectHeaders_eq _ hread hnd
    simp [send_and_parse, hm, hs, hc, hsv, hct, parse_as_json, hj, hins, hcollect,
      headersToJson, Function.comp_def]
  · cases j with
    | obj fields => exact absurd rfl (hnotobj fields)
    | null => simp [send_and_parse, hm, hs, hc, hsv, hct, parse_as_json, hj]
    | bool b => simp [send_and_parse, hm, hs, hc, hsv, hct, parse_as_json, hj]
    | num n => simp [send_and_parse, hm, hs, hc, hsv, hct, parse_as_json, hj]
    | str s2 => simp [send_and_parse, hm, hs, hc, hsv, hct, parse_as_json, hj]
    | arr xs => simp [send_and_parse, hm, hs, hc, hsv, hct, parse_as_json, hj]

/-- Witness for C3: object body with and without `require_headers`, and an
array body with `require_headers`. -/
theorem C3_witness :
    (send_and_parse exReq exLogger false exWorldJsonObj).1
      = .ok (ResponseBody.Json (JsonValue.obj [("a", JsonValue.num 1)]))
    ∧ (send_and_parse exReq exLogger true exWorldJsonObj).1
      = .ok (ResponseBody.Json (JsonValue.obj
          [("a", JsonValue.num 1),
           ("__headers__", JsonValue.obj
             [("content-type", JsonValue.str "application/json"),
              ("host", JsonValue.str "localhost")])]))
    ∧ (send_and_parse exReq exLogger true exWorldJsonArr).1
      = .ok (ResponseBody.Json (JsonValue.arr [JsonValue.num 1])) :=
  ⟨(C3_require_headers_injection exReq exLogger exWorldJsonObj exRespJson _
      rfl rfl (Or.inl (by decide)) rfl rfl).1,
   (C3_require_headers_injection exReq exLogger exWorldJsonObj exRespJson _
      rfl rfl (Or.inl (by decide)) rfl rfl).2.1 [("a", JsonValue.num 1)] rfl
      (by decide) (by decide) (by decide),
   (C3_require_headers_injection exReq exLogger exWorldJsonArr exRespJson _
      rfl rfl (Or.inl (by decide)) rfl rfl).2.2
      (fun fields h => JsonValue.noConfusion h)⟩

/-- C4: a request carrying a mock capability never triggers a network send;
on handler success the pipeline result is the handler's body, on handler
failure the error is returned wrapped as a Middleware-class error. -/
theorem C4_mock_short_circuit
    (req : RequestBuilder) (logger : Logger) (rh : Bool) (world : World)
    (mock : MockServer)
    (hm : req.extensions.mockServer = some mock) :
    sendCount (send_and_parse req logger rh world).2 = 0
    ∧ (∀ breq body, req.build = .ok breq → mock.handle breq = .ok body →
        (send_and_parse req logger rh world).1 = .ok body)
    ∧ (∀ breq e, req.build = .ok breq → mock.handle breq = .error e →
        (send_and_parse req logger rh world).1 = .error (ApiError.Middleware e)) := by
  refine ⟨?_, fun breq body hb hh => ?_, fun breq e hb hh => ?_⟩
  · rcases hb : req.build with e | breq
    · simp [send_and_parse, hm, hb, sendCount]
    · rcases hh : mock.handle breq with e | body <;>
        simp [send_and_parse, hm, hb, hh, sendCount]
  · simp [send_and_parse, hm, hb, hh]
  · simp [send_and_parse, hm, hb, hh]

/-- Witness for C4 at a succeeding and a failing concrete mock. -/
theorem C4_witness :
    sendCount (send_and_parse exReqMockOk exLogger false exWorldText).2 = 0
    ∧ (send_and_parse exReqMockOk exLogger false exWorldText).1
        = .ok (ResponseBody.Text "mocked")
    ∧ (send_and_parse exReqMockErr exLogger false exWorldText).1
        = .error (ApiError.Middleware "boom") :=
  ⟨(C4_mock_short_circuit exReqMockOk exLogger false exWorldText exMockOk rfl).1,
   (C4_mock_short_circuit exReqMockOk exLogger false exWorldText exMockOk rfl).2.1
      exBuilt (ResponseBody.Text "mocked") rfl rfl,
   (C4_mock_short_circuit exReqMockErr exLogger false exWorldText exMockErr rfl).2.2
      exBuilt "boom" rfl rfl⟩

/-- Counterexample to C5: a 200 response with content type
`application/octet-stream` makes `send_and_parse` return
`UnsupportedContentType` without any `log_error` call, so not every returned
error is logged. -/
theorem C5_counterexample :
    (send_and_parse exReq exLogger false exWorldOctet).1
      = .error (ApiError.UnsupportedContentType (MimeType.Other "application/octet-stream"))
    ∧ errorLogTotal (send_and_parse exReq exLogger false exWorldOctet).2 = 0 :=
  ⟨rfl, rfl⟩

/-- C5 as amended: `send_and_parse` logs exactly the status errors
(`HttpClientStatus` / `HttpServerStatus`), decode errors (`DecodeResponse`)
and mock-handler failures (`Middleware`) — each exactly once, and only the
returned error; `BuildRequest`, `Network` and `UnsupportedContentType` errors
are returned without being logged, and no `log_error` call occurs on
success. -/
theorem C5_amended_logging_policy
    (req : RequestBuilder) (logger : Logger) (rh : Bool) (world : World) :
    (∀ e, (send_and_parse req logger rh world).1 = .error e →
      errorLogCount (send_and_parse req logger rh world).2 e
          = (if isLoggedKind e then 1 else 0)
      ∧ errorLogTotal (send_and_parse req logger rh world).2
          = (if isLoggedKind e then 1 else 0))
    ∧ (∀ b, (send_and_parse req logger rh world).1 = .ok b →
      errorLogTotal (send_and_parse req logger rh world).2 = 0) := by
  rcases hm : req.extensions.mockServer with _ | mock
  · rcases hs : world.sendResult with e0 | res
    · have hval : send_and_parse req logger rh world
          = (.error (ApiError.Network e0), [Event.networkSend]) := by
        simp [send_and_parse, hm, hs]
      rw [hval]
      refine ⟨fun e he => ?_, fun b hb => ?_⟩
      · simp only [Except.error.injEq] at he
        subst he
        simp [errorLogCount, errorLogTotal, isLoggedKind]
      · simp at hb
    · by_cases hcl : isClientError res.status = true
      · have hval : send_and_parse req logger rh world
            = (.error (ApiError.HttpClientStatus res.status (statusToString res.status)),
               [Event.networkSend,
                Event.logError (ApiError.HttpClientStatus res.status (statusToString res.status))]) := by
          simp [send_and_parse, hm, hs, hcl]
        rw [hval]
        refine ⟨fun e he => ?_, fun b hb => ?_⟩
        · simp only [Except.error.injEq] at he
          subst he
          simp [errorLogCount, errorLogTotal, isLoggedKind]
        · simp at hb
      · by_cases hsv : isServerError res.status = true
        · rw [Bool.not_eq_true] at hcl
          have hval : send_and_parse req logger rh world
              = (.error (ApiError.HttpServerStatus res.status (statusToString res.status)),
                 [Event.networkSend,
                  Event.logError (ApiError.HttpServerStatus res.status (statusToString res.status))]) := by
            simp [send_and_parse, hm, hs, hcl, hsv]
          rw [hval]
          refine ⟨fun e he => ?_, fun b hb => ?_⟩
          · simp only [Except.error.injEq] at he
            subst he
            simp [errorLogCount, errorLogTotal, isLoggedKind]
          · simp at hb
        · rw [Bool.not_eq_true] at hcl hsv
          rcases hct : ((contentTypeOf res).map MimeType.from).getD MimeType.Text
            with _ | _ | _ | raw
          · rcases hj : world.jsonResult with e1 | j
            · have hval : send_and_parse req logger rh world
                  = (.error (ApiError.DecodeResponse MimeType.Json e1),
                     [Event.networkSend, Event.decoderInvoked DecoderKind.Json,
                      Event.logError (ApiError.DecodeResponse MimeType.Json e1)]) := by
                simp [send_and_parse, hm, hs, hcl, hsv, hct, parse_as_json, hj]
              rw [hval]
              refine ⟨fun e he => ?_, fun b hb => ?_⟩
              · simp only [Except.error.injEq] at he
                subst he
                simp [errorLogCount, errorLogTotal, isLoggedKind]
              · simp at hb
            · refine ⟨fun e he => ?_, fun b hb => ?_⟩
              · exfalso
                simp [send_and_parse, hm, hs, hcl, hsv, hct, parse_as_json, hj] at he
              · have h2 : (send_and_parse req logger rh world).2
                    = [Event.networkSend, Event.decoderInvoked DecoderKind.Json,
                       Event.logResponseJson j] := by
                  simp [send_and_parse, hm, hs, hcl, hsv, hct, parse_as_json, hj]
                rw [h2]
                simp [errorLogTotal]
          · rcases ht : world.textResult with e1 | t
            · have hval : send_and_parse req logger rh world
                  = (.error (ApiError.DecodeResponse MimeType.Xml e1),
                     [Event.networkSend, Event.decoderInvoked DecoderKind.Xml,
                      Event.logError (ApiError.DecodeResponse MimeType.Xml e1)]) := by
                simp [send_and_parse, hm, hs, hcl, hsv, hct, parse_as_xml, ht]
              rw [hval]
              refine ⟨fun e he => ?_, fun b hb => ?_⟩
              · simp only [Except.error.injEq] at he
                subst he
                simp [errorLogCount, errorLogTotal, isLoggedKind]
              · simp at hb
            · have hval : send_and_parse req logger rh world
                  = (.ok (ResponseBody.Xml t),
                     [Event.networkSend, Event.decoderInvoked DecoderKind.Xml,
                      Event.logResponseXml t]) := by
                simp [send_and_parse, hm, hs, hcl, hsv, hct, parse_as_xml, ht]
              rw [hval]
              refine ⟨fun e he => ?_, fun b hb => ?_⟩
              · simp at he
              · simp [errorLogTotal]
          · rcases ht : world.textResult with e1 | t
            · have hval : send_and_parse req logger rh world
                  = (.error (ApiError.DecodeResponse MimeType.Text e1),
                     [Event.networkSend, Event.decoderInvoked DecoderKind.Text,
                      Event.logError (ApiError.DecodeResponse MimeType.Text e1)]) := by
                simp [send_and_parse, hm, hs, hcl, hsv, hct, parse_as_text, ht]
              rw [hval]
              refine ⟨fun e he => ?_, fun b hb => ?_⟩
              · simp only [Except.error.injEq] at he
                subst he
                simp [errorLogCount, errorLogTotal, isLoggedKind]
              · simp at hb
            · have hval : send_and_parse req logger rh world
                  = (.ok (ResponseBody.Text t),
                     [Event.networkSend, Event.decoderInvoked DecoderKind.Text,
                      Event.logResponseText t]) := by
                simp [send_and_parse, hm, hs, hcl, hsv, hct, parse_as_text, ht]
              rw [hval]
              refine ⟨fun e he => ?_, fun b hb => ?_⟩
              · simp at he
              · simp [errorLogTotal]
          · have hval : send_and_parse req logger rh world
                = (.error (ApiError.UnsupportedContentType (MimeType.Other raw)),
                   [Event.networkSend]) := by
              simp [send_and_parse, hm, hs, hcl, hsv, hct]
            rw [hval]
            refine ⟨fun e he => ?_, fun b hb => ?_⟩
            · simp only [Except.error.injEq] at he
              subst he
              simp [errorLogCount, errorLogTotal, isLoggedKind]
            · simp at hb
  · rcases hb : req.build with e1 | breq
    · have hval : send_and_parse req logger rh world
          = (.error (ApiError.BuildRequest e1), []) := by
        simp [send_and_parse, hm, hb]
      rw [hval]
      refine ⟨fun e he => ?_, fun b hb2 => ?_⟩
      · simp only [Except.error.injEq] at he
        subst he
        simp [errorLogCount, errorLogTotal, isLoggedKind]
      · simp at hb2
    · rcases hh : mock.handle breq with e1 | body
      · have hval : send_and_parse req logger rh world
            = (.error (ApiError.Middleware e1),
               [Event.logMockRequestAndResponse mock.type_name,
                Event.logError (ApiError.Middleware e1)]) := by
          simp [send_and_parse, hm, hb, hh]
        rw [hval]
        refine ⟨fun e he => ?_, fun b hb2 => ?_⟩
        · simp only [Except.error.injEq] at he
          subst he
          simp [errorLogCount, errorLogTotal, isLoggedKind]
        · simp at hb2
      · have hval : send_and_parse req logger rh world
            = (.ok body,
               [Event.logMockRequestAndResponse mock.type_name,
                Event.logMockResponseBody body]) := by
          simp [send_and_parse, hm, hb, hh]
        rw [hval]
        refine ⟨fun e he => ?_, fun b hb2 => ?_⟩
        · simp at he
        · simp [errorLogTotal]

/-- Witness for C5 as amended: a logged status error and an unlogged
unsupported-content-type error. -/
theorem C5_witness :
    errorLogTotal (send_and_parse exReq exLogger false exWorld404).2 = 1
    ∧ errorLogTotal (send_and_parse exReq exLogger false exWorldOctet).2 = 0 :=
  ⟨((C5_amended_logging_policy exReq exLogger false exWorld404).1
      (ApiError.HttpClientStatus 404 "404 Not Found") rfl).2,
   ((C5_amended_logging_policy exReq exLogger false exWorldOctet).1
      (ApiError.UnsupportedContentType (MimeType.Other "application/octet-stream")) rfl).2⟩

/-- Pipeline congruence: `send_and_parse` reads the request only through its
mock extension and its build outcome. -/
theorem send_and_parse_eq_of (req req2 : RequestBuilder) (logger : Logger)
    (rh : Bool) (world : World)
    (h1 : req2.extensions.mockServer = req.extensions.mockServer)
    (h2 : req2.build = req.build) :
    send_and_parse req2 logger rh world = send_and_parse req logger rh world := by
  unfold send_and_parse
  rw [h1, h2]

/-- Attaching a logger extension does not change the outcome of
`send_and_parse`. -/
theorem send_and_parse_withLogger (req : RequestBuilder) (l : Logger)
    (logger : Logger) (rh : Bool) (world : World) :
    send_and_parse (req.withLogger l) logger rh world
      = send_and_parse req logger rh world :=
  send_and_parse_eq_of req (req.withLogger l) logger rh world
    (by simp [RequestBuilder.withLogger]) (by simp [RequestBuilder.withLogger])

/-- Counterexample to C6: `_send_form` with a multipart-claiming payload that
cannot produce a multipart body does not fail with `MultipartForm` — it sends
the request and succeeds. -/
theorem C6_counterexample :
    (_send_form exReq exFormNoMultipart exCfg exWorldText).1
      = .ok (ResponseBody.Text "hello")
    ∧ sendCount (_send_form exReq exFormNoMultipart exCfg exWorldText).2 = 1 :=
  ⟨rfl, rfl⟩

/-- C6 as amended: `_send_multipart` fails with the typed `MultipartForm`
error — performing no send and no logging — when the payload cannot produce a
multipart body; `_send_form` on such a payload raises no error and behaves
exactly like `_send` with no payload attached (the request is still sent). -/
theorem C6_amended_multipart_paths :
    (∀ (req : RequestBuilder) (form : FormLike) (config : RequestConfigurator)
       (world : World), form.get_multipart = none →
      _send_multipart req form config world = (.error ApiError.MultipartForm, []))
    ∧ (∀ (req : RequestBuilder) (form : FormLike) (config : RequestConfigurator)
        (world : World), form.is_multipart = true → form.get_multipart = none →
      _send_form req form config world = _send req config world) := by
  constructor
  · intro req form config world hnone
    simp [_send_multipart, hnone]
  · intro req form config world hmult hnone
    unfold _send_form _send
    rw [hmult, hnone]
    simp only [if_true]
    by_cases hen :
      (config.build (RequestTraceIdMiddleware.inject_extension req world.freshRequestId)).1.is_enabled
        = true
    · rw [if_pos hen, if_pos hen]
      rw [send_and_parse_withLogger, send_and_parse_withLogger]
    · rw [Bool.not_eq_true] at hen
      rw [if_neg (by simp [hen]), if_neg (by simp [hen])]

/-- Witness for C6 as amended at a concrete multipart-less payload. -/
theorem C6_witness :
    _send_multipart exReq exFormNoMultipart exCfg exWorldText
      = (.error ApiError.MultipartForm, [])
    ∧ _send_form exReq exFormNoMultipart exCfg exWorldText
      = _send exReq exCfg exWorldText :=
  ⟨C6_amended_multipart_paths.1 exReq exFormNoMultipart exCfg exWorldText rfl,
   C6_amended_multipart_paths.2 exReq exFormNoMultipart exCfg exWorldText rfl rfl⟩

/-- C7: `RequestConfigurator.build` is total and returns the effective
`require_headers` flag together with a Logger whose level is taken from the
request's `LogConfig` extension when present (overriding the Configurator's
own filter), else from the Configurator's filter, else `Debug`; its
correlation id comes from the `RequestId` extension, defaulting to the empty
string; its target is the Configurator's log target. -/
theorem C7_build_characterization (c : RequestConfigurator) (req : RequestBuilder) :
    (c.build req).2 = c.require_headers
    ∧ ((c.build req).1).target = c.log_target
    ∧ ((c.build req).1).payload = none
    ∧ (∀ cfg, req.extensions.logConfig = some cfg → ((c.build req).1).level = cfg.level)
    ∧ (req.extensions.logConfig = none →
        ((c.build req).1).level = c.log_filter.getD LevelFilter.Debug)
    ∧ (req.extensions.logConfig = none → c.log_filter = none →
        ((c.build req).1).level = LevelFilter.Debug)
    ∧ (∀ rid, req.extensions.requestId = some rid →
        ((c.build req).1).requestId = rid.request_id)
    ∧ (req.extensions.requestId = none → ((c.build req).1).requestId = "") := by
  refine ⟨rfl, rfl, rfl, fun cfg hcfg => ?_, fun hn => ?_, fun hn hf => ?_,
    fun rid hr => ?_, fun hn => ?_⟩
  · simp [RequestConfigurator.build, Logger.new, hcfg, Option.orElse]
  · simp [RequestConfigurator.build, Logger.new, hn, Option.orElse]
  · simp [RequestConfigurator.build, Logger.new, hn, hf, Option.orElse]
  · simp [RequestConfigurator.build, Logger.new, hr]
  · simp [RequestConfigurator.build, Logger.new, hn]

/-- Witness for C7 at a request with extensions and one without. -/
theorem C7_witness :
    (exCfg.build exReqExt).2 = false
    ∧ ((exCfg.build exReqExt).1).level = LevelFilter.Info
    ∧ ((exCfg.build exReqExt).1).requestId = "abc"
    ∧ ((exCfg.build exReq).1).level = LevelFilter.Debug :=
  ⟨(C7_build_characterization exCfg exReqExt).1,
   (C7_build_characterization exCfg exReqExt).2.2.2.1 { level := LevelFilter.Info } rfl,
   (C7_build_characterization exCfg exReqExt).2.2.2.2.2.2.1 { request_id := "abc" } rfl,
   (C7_build_characterization exCfg exReq).2.2.2.2.2.1 rfl rfl⟩

/-- Counterexample to C8: for a 404 response the returned error's string is
the status display string `"404 Not Found"`, not the bare reason phrase
`"Not Found"`. -/
theorem C8_counterexample :
    (send_and_parse exReq exLogger false exWorld404).1
      = .error (ApiError.HttpClientStatus 404 "404 Not Found")
    ∧ (send_and_parse exReq exLogger false exWorld404).1
      ≠ .error (ApiError.HttpClientStatus 404 "Not Found") := by
  refine ⟨rfl, ?_⟩
  rw [show (send_and_parse exReq exLogger false exWorld404).1
      = .error (ApiError.HttpClientStatus 404 "404 Not Found") from rfl]
  simp only [ne_eq, Except.error.injEq]
  decide

/-- C8 as amended: a 404 response yields exactly
`HttpClientStatus(404, "404 Not Found")` (numeric code plus the status
display string, which prefixes the reason phrase with the code) and no
decoding is attempted. -/
theorem C8_amended_404
    (req : RequestBuilder) (logger : Logger) (rh : Bool) (world : World)
    (res : HttpResponse)
    (hm : req.extensions.mockServer = none)
    (hs : world.sendResult = .ok res)
    (h404 : res.status = 404) :
    send_and_parse req logger rh world
      = (.error (ApiError.HttpClientStatus 404 "404 Not Found"),
         [Event.networkSend,
          Event.logError (ApiError.HttpClientStatus 404 "404 Not Found")])
    ∧ decoderTotal (send_and_parse req logger rh world).2 = 0 := by
  have hc : isClientError res.status = true := by simp [isClientError]; omega
  have hc404 : isClientError 404 = true := by decide
  have hstr : statusToString 404 = "404 Not Found" := rfl
  constructor
  · simp [send_and_parse, hm, hs, h404, hc404, hstr]
  · simp [send_and_parse, hm, hs, hc, decoderTotal]

/-- Witness for C8 as amended at a concrete 404 response. -/
theorem C8_witness :
    send_and_parse exReq exLogger false exWorld404
      = (.error (ApiError.HttpClientStatus 404 "404 Not Found"),
         [Event.networkSend,
          Event.logError (ApiError.HttpClientStatus 404 "404 Not Found")]) :=
  (C8_amended_404 exReq exLogger false exWorld404 _ rfl rfl rfl).1

/-- Congruence for the raw pipeline: `send_and_unparse` reads the request only
through its mock extension and its build outcome. -/
theorem send_and_unparse_eq_of (req req2 : RequestBuilder) (logger : Logger)
    (world : World)
    (h1 : req2.extensions.mockServer = req.extensions.mockServer)
    (h2 : req2.build = req.build) :
    send_and_unparse req2 logger world = send_and_unparse req logger world := by
  unfold send_and_unparse
  rw [h1, h2]

/-- Trace-id injection does not touch the mock extension. -/
theorem inject_extension_mockServer (req : RequestBuilder) (fresh : String) :
    (RequestTraceIdMiddleware.inject_extension req fresh).extensions.mockServer
      = req.extensions.mockServer := by
  unfold RequestTraceIdMiddleware.inject_extension
  cases hx : req.extensions.requestId <;> simp [hx]

/-- C9: `_send_raw` does not honor `require_headers` — two configurators
differing only in that flag produce identical results and traces — and on the
network path it performs no status classification and no decoding, returning
the unmodified response object. -/
theorem C9_raw_ignores_require_headers :
    (∀ (c : RequestConfigurator) (a b : Bool) (req : RequestBuilder) (world : World),
      _send_raw req { c with require_headers := a } world
        = _send_raw req { c with require_headers := b } world)
    ∧ (∀ (req : RequestBuilder) (c : RequestConfigurator) (world : World)
        (res : HttpResponse),
        req.extensions.mockServer = none → world.sendResult = .ok res →
        _send_raw req c world = (.ok res, [Event.networkSend])) := by
  constructor
  · intro c a b req world
    rfl
  · intro req c world res hm hs
    have hm1 : (RequestTraceIdMiddleware.inject_extension req
        world.freshRequestId).extensions.mockServer = none :=
      (inject_extension_mockServer req world.freshRequestId).trans hm
    unfold _send_raw
    by_cases hen :
      ((c.build (RequestTraceIdMiddleware.inject_extension req world.freshRequestId)).1).is_enabled
        = true
    · simp [hen, send_and_unparse, RequestBuilder.withLogger, hm1, hs]
    · rw [Bool.not_eq_true] at hen
      simp [hen, send_and_unparse, hm1, hs]

/-- Witness for C9: flag-invariance and raw passthrough of a 404 response at
concrete inputs. -/
theorem C9_witness :
    _send_raw exReq { exCfg with require_headers := true } exWorldText
      = _send_raw exReq { exCfg with require_headers := false } exWorldText
    ∧ _send_raw exReq exCfg exWorld404
      = (.ok { status := 404, headers := [] }, [Event.networkSend]) :=
  ⟨C9_raw_ignores_require_headers.1 exCfg true false exReq exWorldText,
   C9_raw_ignores_require_headers.2 exReq exCfg exWorld404 _ rfl rfl⟩

/-- C10: a non-error response with no readable content-type header is treated
as Text — the Text decoder is invoked (exactly once), `UnsupportedContentType`
is never returned, and on a successful text decode the result is the raw body
as `ResponseBody.Text`. -/
theorem C10_missing_content_type_defaults_to_text
    (req : RequestBuilder) (logger : Logger) (rh : Bool) (world : World)
    (res : HttpResponse)
    (hm : req.extensions.mockServer = none)
    (hs : world.sendResult = .ok res)
    (hstat : res.status < 400 ∨ 599 < res.status)
    (hct : contentTypeOf res = none) :
    decoderCount (send_and_parse req logger rh world).2 DecoderKind.Text = 1
    ∧ decoderTotal (send_and_parse req logger rh world).2 = 1
    ∧ (∀ t, world.textResult = .ok t →
        send_and_parse req logger rh world
          = (.ok (ResponseBody.Text t),
             [Event.networkSend, Event.decoderInvoked DecoderKind.Text,
              Event.logResponseText t]))
    ∧ (∀ mt, (send_and_parse req logger rh world).1
        ≠ .error (ApiError.UnsupportedContentType mt)) := by
  have hc : isClientError res.status = false := by simp [isClientError]; omega
  have hsv : isServerError res.status = false := by simp [isServerError]; omega
  refine ⟨?_, ?_, fun t ht => ?_, fun mt => ?_⟩
  · rcases ht : world.textResult with e | t <;>
      simp [send_and_parse, hm, hs, hc, hsv, hct, parse_as_text, ht, decoderCount]
  · rcases ht : world.textResult with e | t <;>
      simp [send_and_parse, hm, hs, hc, hsv, hct, parse_as_text, ht, decoderTotal]
  · simp [send_and_parse, hm, hs, hc, hsv, hct, parse_as_text, ht]
  · rcases ht : world.textResult with e | t <;>
      simp [send_and_parse, hm, hs, hc, hsv, hct, parse_as_text, ht]

/-- Witness for C10 at a 200 response with no content-type header. -/
theorem C10_witness :
    send_and_parse exReq exLogger false exWorldText
      = (.ok (ResponseBody.Text "hello"),
         [Event.networkSend, Event.decoderInvoked DecoderKind.Text,
          Event.logResponseText "hello"]) :=
  (C10_missing_content_type_defaults_to_text exReq exLogger false exWorldText _
      rfl rfl (Or.inl (by decide)) rfl).2.2.1 "hello" rfl
